import Mathlib

/-!
Verification of the FAN5345 backlight driver core (src/fan5345/fan5345_bl.c).

The driver keeps a software belief `cur_level : int` of the position of the
internal step counter of the IC and translates absolute brightness requests into
step-down pulses on a single GPIO line.  The C code is embedded shallowly:

* machine `int` values become `Int`;
* the unbounded `while` loop of `fan5345_set_level` becomes a fuel-indexed
  function returning `Option` (`none` = the loop did not finish within the
  given number of iterations);
* GPIO writes and delays have no observable effect on driver state beyond
  the pulse count, so each loop iteration is recorded as one pulse, and the
  sustained-low shutdown of `fan5345_disable` is recorded by a flag;
* external collaborators of `fan5345_probe` (GPIO acquisition, device-tree
  property read, backlight registration) are abstracted as `Except`-valued
  parameters giving their outcomes.
-/

/-- Models `#define NUM_STEPS 32`. -/
def NUM_STEPS : Int := 32

/-- Models `#define START_STEP 32` (declared in the source but never used). -/
def START_STEP : Int := 32

/-- Models `#define MIN_STEP 1`. -/
def MIN_STEP : Int := 1

/-- Effect of one loop iteration on `fanbl->cur_level` in `fan5345_set_level`:
`DIR(fanbl->cur_level)` decrements it, then
`if(fanbl->cur_level <= 0) fanbl->cur_level = NUM_STEPS;` rolls it over. -/
def pulseStep (cur : Int) : Int :=
  if cur - 1 ≤ 0 then NUM_STEPS else cur - 1

/-- Models `fan5345_disable`: sets `fanbl->cur_level = 0` (and drives the GPIO low
for 1 ms, which has no further effect on driver state). -/
def fan5345_disable (_cur_level : Int) : Int := 0

/-- The `while(fanbl->cur_level != bl->props.brightness)` loop of
`fan5345_set_level`, indexed by fuel.  Returns the final `cur_level` and the
number of pulses emitted, or `none` if the loop does not exit within `fuel`
iterations. -/
def setLevelLoop : Nat → Int → Int → Option (Int × Nat)
  | 0, cur, target => if cur = target then some (cur, 0) else none
  | fuel + 1, cur, target =>
    if cur = target then some (cur, 0)
    else
      match setLevelLoop fuel (pulseStep cur) target with
      | some (f, k) => some (f, k + 1)
      | none => none

/-- A partial run of the same loop: the value of `cur_level` and the number
of pulses emitted after at most `fuel` iterations (stopping early if the
target is reached).  Used to observe the state of a run that has not
finished. -/
def setLevelSteps : Nat → Int → Int → Int × Nat
  | 0, cur, _ => (cur, 0)
  | fuel + 1, cur, target =>
    if cur = target then (cur, 0)
    else
      let p := setLevelSteps fuel (pulseStep cur) target
      (p.1, p.2 + 1)

/-- The sequence of values `fanbl->cur_level` takes during the loop, one
entry per iteration (up to `fuel` of them). -/
def loopTrace : Nat → Int → Int → List Int
  | 0, _, _ => []
  | fuel + 1, cur, target =>
    if cur = target then []
    else pulseStep cur :: loopTrace fuel (pulseStep cur) target

/-- Everything observable about a terminating `fan5345_set_level` call:
the final `fanbl->cur_level`, the number of GPIO pulses emitted, whether
the shutdown sequence (`fan5345_disable`) ran, and the C return value. -/
structure SetLevelResult where
  cur_level : Int
  pulses : Nat
  did_shutdown : Bool
  ret : Int
deriving DecidableEq, Repr

/-- Models `fan5345_set_level`: if `bl->props.brightness < MIN_STEP` it first calls
`fan5345_disable` (resetting `cur_level` to 0), then runs the pulse loop
until `cur_level` equals the requested brightness, and returns 0. -/
def fan5345_set_level (fuel : Nat) (cur_level brightness : Int) :
    Option SetLevelResult :=
  let cur1 := if brightness < MIN_STEP then fan5345_disable cur_level
              else cur_level
  match setLevelLoop fuel cur1 brightness with
  | some (f, k) => some ⟨f, k, decide (brightness < MIN_STEP), 0⟩
  | none => none

/-- The sequence of values `fanbl->cur_level` takes during a
`fan5345_set_level` call: the reset to 0 when the shutdown path runs,
followed by the pulse decrements of the loop. -/
def setLevelTrace (fuel : Nat) (cur_level brightness : Int) : List Int :=
  if brightness < MIN_STEP then
    fan5345_disable cur_level :: loopTrace fuel (fan5345_disable cur_level) brightness
  else loopTrace fuel cur_level brightness

/-- Models `fanbl->cur_level = 0;` in `fan5345_probe`: the value of the
tracker at attach time. -/
def attachInitLevel : Int := 0

/-- The driver-visible state of the registered backlight device:
`bl->props.brightness` (the last requested level, written by the host
framework) and `fanbl->cur_level` (the believed IC position). -/
structure DeviceState where
  brightness : Int
  cur_level : Int
deriving DecidableEq, Repr

/-- Models `fan5345_get_level` (the `.get_brightness` hook): returns
`bl->props.brightness`. -/
def fan5345_get_level (s : DeviceState) : Int := s.brightness

/-- A brightness-change request as issued by the host framework: it stores
the target in `bl->props.brightness` and calls the `.update_status` hook
`fan5345_set_level`. -/
def hostSetBrightness (fuel : Nat) (s : DeviceState) (target : Int) :
    Option DeviceState :=
  match fan5345_set_level fuel s.cur_level target with
  | some r => some ⟨target, r.cur_level⟩
  | none => none

/-- A sequence of brightness-change requests, applied in order. -/
def runRequests (fuel : Nat) (s : DeviceState) : List Int → Option DeviceState
  | [] => some s
  | t :: ts =>
    match hostSetBrightness fuel s t with
    | some s1 => runRequests fuel s1 ts
    | none => none

/-- The observable outcome of a successful `fan5345_probe`: whether the
out-of-range warning was logged, the resulting device state, and the pulses
emitted by the attach-time `backlight_update_status` call. -/
structure ProbeOk where
  warned : Bool
  dev : DeviceState
  pulses : Nat
deriving DecidableEq, Repr

/-- Models `fan5345_probe`, with its external collaborators abstracted as outcome
parameters: `gpioRes` for `devm_gpiod_get`, `propRes` for
`of_property_read_u32` of "default-level" (a `u32`, hence `Nat`), and
`regRes` for `devm_backlight_device_register`.  A GPIO or property-read
error is returned as-is before registration; an out-of-range default level
is clamped to `NUM_STEPS` with a warning; `cur_level` starts at
`attachInitLevel`; a nonzero default level is applied once via
`fan5345_set_level` (`NUM_STEPS` iterations always suffice from level 0;
the `none` branch is unreachable). -/
def fan5345_probe (gpioRes : Except Int Unit) (propRes : Except Int Nat)
    (regRes : Except Int Unit) : Except Int ProbeOk :=
  match gpioRes with
  | .error e => .error e
  | .ok _ =>
    match propRes with
    | .error e => .error e
    | .ok dl =>
      let warned := decide (dl > 32)
      let def_level : Nat := if dl > 32 then 32 else dl
      match regRes with
      | .error e => .error e
      | .ok _ =>
        if def_level ≠ 0 then
          match fan5345_set_level 32 attachInitLevel (def_level : Int) with
          | some r => .ok ⟨warned, ⟨(def_level : Int), r.cur_level⟩, r.pulses⟩
          | none => .error (-22)
        else .ok ⟨warned, ⟨0, attachInitLevel⟩, 0⟩

/-! ### Helper lemmas about the pulse loop -/

theorem pulseStep_pos (c : Int) : 1 ≤ pulseStep c := by
  simp only [pulseStep, NUM_STEPS]
  split <;> omega

theorem pulseStep_le (c : Int) (h : c ≤ NUM_STEPS + 1) : pulseStep c ≤ NUM_STEPS := by
  simp only [pulseStep, NUM_STEPS] at *
  split <;> omega

theorem setLevelLoop_self (fuel : Nat) (t : Int) :
    setLevelLoop fuel t t = some (t, 0) := by
  cases fuel <;> simp [setLevelLoop]

theorem setLevelLoop_final (fuel : Nat) :
    ∀ (cur target f : Int) (k : Nat),
      setLevelLoop fuel cur target = some (f, k) → f = target := by
  induction fuel with
  | zero =>
    intro cur target f k h
    by_cases hc : cur = target
    · simp [setLevelLoop, hc] at h
      omega
    · simp [setLevelLoop, hc] at h
  | succ n ih =>
    intro cur target f k h
    by_cases hc : cur = target
    · simp [setLevelLoop, hc] at h
      omega
    · simp only [setLevelLoop, if_neg hc] at h
      cases hrec : setLevelLoop n (pulseStep cur) target with
      | none => rw [hrec] at h; simp at h
      | some p =>
        obtain ⟨f0, k0⟩ := p
        rw [hrec] at h
        simp only [Option.some.injEq, Prod.mk.injEq] at h
        exact h.1 ▸ ih _ _ _ _ hrec

theorem setLevelLoop_mem (fuel : Nat) :
    ∀ (cur target f : Int) (k : Nat),
      0 ≤ cur → cur ≤ NUM_STEPS →
      setLevelLoop fuel cur target = some (f, k) →
      0 ≤ f ∧ f ≤ NUM_STEPS := by
  induction fuel with
  | zero =>
    intro cur target f k h0 h1 h
    by_cases hc : cur = target
    · simp [setLevelLoop, hc] at h
      omega
    · simp [setLevelLoop, hc] at h
  | succ n ih =>
    intro cur target f k h0 h1 h
    by_cases hc : cur = target
    · simp [setLevelLoop, hc] at h
      omega
    · simp only [setLevelLoop, if_neg hc] at h
      cases hrec : setLevelLoop n (pulseStep cur) target with
      | none => rw [hrec] at h; simp at h
      | some p =>
        obtain ⟨f0, k0⟩ := p
        rw [hrec] at h
        simp only [Option.some.injEq, Prod.mk.injEq] at h
        have hb1 := pulseStep_pos cur
        have hb2 := pulseStep_le cur (by simp [NUM_STEPS] at h1 ⊢; omega)
        exact h.1 ▸ ih _ _ _ _ (by omega) hb2 hrec

theorem setLevelLoop_none_of_target_gt (fuel : Nat) :
    ∀ cur target : Int, 0 ≤ cur → cur ≤ NUM_STEPS → NUM_STEPS < target →
      setLevelLoop fuel cur target = none := by
  induction fuel with
  | zero =>
    intro cur target h0 h1 ht
    have hc : cur ≠ target := by omega
    simp [setLevelLoop, hc]
  | succ n ih =>
    intro cur target h0 h1 ht
    have hc : cur ≠ target := by omega
    have hb1 := pulseStep_pos cur
    have hb2 := pulseStep_le cur (by simp [NUM_STEPS] at h1 ⊢; omega)
    simp only [setLevelLoop, if_neg hc]
    rw [ih (pulseStep cur) target (by omega) hb2 ht]

theorem setLevelLoop_none_of_target_neg (fuel : Nat) :
    ∀ cur target : Int, 0 ≤ cur → target < 0 →
      setLevelLoop fuel cur target = none := by
  induction fuel with
  | zero =>
    intro cur target h0 ht
    have hc : cur ≠ target := by omega
    simp [setLevelLoop, hc]
  | succ n ih =>
    intro cur target h0 ht
    have hc : cur ≠ target := by omega
    have hb1 := pulseStep_pos cur
    simp only [setLevelLoop, if_neg hc]
    rw [ih (pulseStep cur) target (by omega) ht]

/-- Decidable check backing claim C1: from start level `s` with target `t`
(both given as `Nat` and mapped into `Int`), `fan5345_set_level` with
`NUM_STEPS` fuel terminates at the target with at most `NUM_STEPS` pulses,
no shutdown, and return value 0. -/
def checkC1 (s t : Nat) : Bool :=
  match fan5345_set_level 32 (s : Int) (t : Int) with
  | some r =>
    decide (r.cur_level = (t : Int) ∧ r.pulses ≤ 32 ∧
            r.did_shutdown = false ∧ r.ret = 0)
  | none => false

theorem checkC1_all : ∀ i j : Fin 32, checkC1 (i.1 + 1) (j.1 + 1) = true := by
  decide

/-- Claim C1: for every pair of levels `start` and `target` in
`[1, NUM_STEPS]`, `fan5345_set_level` run from `cur_level = start`
terminates within `NUM_STEPS` loop iterations, emits at most `NUM_STEPS`
pulses, and leaves `cur_level` equal to `target` (without running the
shutdown path, returning 0). -/
theorem fan5345_set_level_reaches_target (s t : Int)
    (hs1 : 1 ≤ s) (hs2 : s ≤ NUM_STEPS) (ht1 : 1 ≤ t) (ht2 : t ≤ NUM_STEPS) :
    ∃ k : Nat, k ≤ 32 ∧ fan5345_set_level 32 s t = some ⟨t, k, false, 0⟩ := by
  simp only [NUM_STEPS] at hs2 ht2
  have hsn : 1 ≤ s.toNat ∧ s.toNat ≤ 32 := by omega
  have htn : 1 ≤ t.toNat ∧ t.toNat ≤ 32 := by omega
  have hc := checkC1_all ⟨s.toNat - 1, by omega⟩ ⟨t.toNat - 1, by omega⟩
  have hs' : s.toNat - 1 + 1 = s.toNat := by omega
  have ht' : t.toNat - 1 + 1 = t.toNat := by omega
  rw [hs', ht'] at hc
  unfold checkC1 at hc
  rw [show ((s.toNat : Int)) = s from by omega,
      show ((t.toNat : Int)) = t from by omega] at hc
  cases hres : fan5345_set_level 32 s t with
  | none => rw [hres] at hc; simp at hc
  | some r =>
    rw [hres] at hc
    simp only [decide_eq_true_eq] at hc
    obtain ⟨h1, h2, h3, h4⟩ := hc
    refine ⟨r.pulses, h2, ?_⟩
    cases r
    simp_all

theorem fan5345_set_level_reaches_target_witness :
    1 ≤ (5 : Int) ∧ (5 : Int) ≤ NUM_STEPS ∧ 1 ≤ (32 : Int) ∧
      (32 : Int) ≤ NUM_STEPS ∧
      ∃ k : Nat, k ≤ 32 ∧ fan5345_set_level 32 5 32 = some ⟨32, k, false, 0⟩ :=
  ⟨by decide, by decide, by decide, by decide,
    fan5345_set_level_reaches_target 5 32 (by decide) (by decide)
      (by decide) (by decide)⟩

/-- Claim C6: one pulse subtracts one from the believed level and replaces
any result that is `≤ 0` with `NUM_STEPS`; in particular, a single loop
iteration from `cur_level = 1` (toward any different target) yields
`NUM_STEPS = 32`, not 0. -/
theorem pulseStep_spec :
    (∀ c : Int, c - 1 ≤ 0 → pulseStep c = NUM_STEPS) ∧
    (∀ c : Int, 0 < c - 1 → pulseStep c = c - 1) ∧
    pulseStep 1 = 32 ∧ pulseStep 1 ≠ 0 ∧
    setLevelSteps 1 1 32 = (32, 1) := by
  refine ⟨?_, ?_, by decide, by decide, by decide⟩
  · intro c h
    simp [pulseStep, h]
  · intro c h
    simp only [pulseStep]
    rw [if_neg (by omega)]

theorem pulseStep_spec_witness :
    ((0 : Int) - 1 ≤ 0 ∧ pulseStep 0 = NUM_STEPS) ∧
      (0 < (5 : Int) - 1 ∧ pulseStep 5 = 5 - 1) :=
  ⟨⟨by decide, pulseStep_spec.1 0 (by decide)⟩,
    ⟨by decide, pulseStep_spec.2.1 5 (by decide)⟩⟩

/-- Claim C7: at attach with configured default level 40 (above
`NUM_STEPS`), `fan5345_probe` clamps it to 32 and logs the out-of-range
warning, and the attach-time `fan5345_set_level` run from the initial
`cur_level = 0` emits exactly one pulse (0 wraps immediately to 32). -/
theorem fan5345_probe_clamp_scenario :
    fan5345_probe (Except.ok ()) (Except.ok 40) (Except.ok ()) =
      Except.ok ⟨true, ⟨32, 32⟩, 1⟩ ∧
    fan5345_set_level 32 attachInitLevel 32 = some ⟨32, 1, false, 0⟩ := by
  constructor <;> rfl

/-- Claim C9: whenever `fan5345_set_level` terminates, it returns 0; the
function has no error path. -/
theorem fan5345_set_level_returns_zero (fuel : Nat) (cur b : Int)
    (r : SetLevelResult) (h : fan5345_set_level fuel cur b = some r) :
    r.ret = 0 := by
  simp only [fan5345_set_level] at h
  split at h
  · cases h
    rfl
  · cases h

theorem fan5345_set_level_returns_zero_witness :
    fan5345_set_level 32 0 0 = some ⟨0, 0, true, 0⟩ ∧
      (⟨0, 0, true, 0⟩ : SetLevelResult).ret = 0 :=
  ⟨by decide, fan5345_set_level_returns_zero 32 0 0 ⟨0, 0, true, 0⟩ (by decide)⟩

/-- Claim C10: at attach, a failed read of the "default-level" property is
fatal: `fan5345_probe` returns the parse error itself, whatever the
registration step would have produced — the device is never registered. -/
theorem fan5345_probe_prop_error_fatal (e : Int) (regRes : Except Int Unit) :
    fan5345_probe (Except.ok ()) (Except.error e) regRes = Except.error e := rfl

/-- Counterexample to claim C2: with `cur_level = 5` and target 33
(`> NUM_STEPS`), `fan5345_set_level` does NOT reject the request — its
first loop iteration already emits a pulse and moves the believed level to
4, and the call has not returned after 64 iterations. -/
theorem fan5345_set_level_above_max_counterexample :
    setLevelSteps 1 5 33 = (4, 1) ∧ fan5345_set_level 64 5 33 = none := by
  constructor <;> rfl

/-- Claim C2 (amended): for every target greater than `NUM_STEPS`,
`fan5345_set_level` performs no range check and reports no error: from any
believed level in `[0, NUM_STEPS]` the pulse loop never reaches the
target, so no amount of fuel makes the call return. -/
theorem fan5345_set_level_no_reject (fuel : Nat) (cur target : Int)
    (h0 : 0 ≤ cur) (h1 : cur ≤ NUM_STEPS) (ht : NUM_STEPS < target) :
    fan5345_set_level fuel cur target = none := by
  have hm : ¬ target < MIN_STEP := by
    simp only [MIN_STEP, NUM_STEPS] at *
    omega
  simp only [fan5345_set_level, if_neg hm,
    setLevelLoop_none_of_target_gt fuel cur target h0 h1 ht]

theorem fan5345_set_level_no_reject_witness :
    0 ≤ (5 : Int) ∧ (5 : Int) ≤ NUM_STEPS ∧ NUM_STEPS < (33 : Int) ∧
      fan5345_set_level 100 5 33 = none :=
  ⟨by decide, by decide, by decide,
    fan5345_set_level_no_reject 100 5 33 (by decide) (by decide) (by decide)⟩

/-- Counterexample to claim C3: `fan5345_set_level` with target `-1` does
not behave like target 0.  From `cur_level = 5`, target 0 finishes (with
the shutdown sequence, zero pulses, final level 0, return 0), while target
`-1` has not returned after 64 iterations; after its shutdown reset to 0,
the very first loop iteration emits a step-down pulse (0 wraps to 32). -/
theorem fan5345_set_level_negative_counterexample :
    fan5345_set_level 64 5 0 = some ⟨0, 0, true, 0⟩ ∧
      fan5345_set_level 64 5 (-1) = none ∧
      setLevelSteps 1 0 (-1) = (32, 1) := by
  refine ⟨rfl, rfl, rfl⟩

/-- Claim C3 (amended): every target below `MIN_STEP` triggers the
shutdown sequence, which resets the believed level to 0; for target 0 the
call then terminates at once — no step-down pulse, final level 0, success —
but for any strictly negative target the subsequent pulse loop never
reaches the target, so the call never returns and is not equivalent to
target 0. -/
theorem fan5345_set_level_off_equiv (fuel : Nat) (cur target : Int)
    (ht : target < MIN_STEP) :
    fan5345_set_level fuel cur target =
      if target = 0 then some ⟨0, 0, true, 0⟩ else none := by
  by_cases h0 : target = 0
  · subst h0
    simp [fan5345_set_level, fan5345_disable, MIN_STEP, setLevelLoop_self]
  · have hneg : target < 0 := by
      simp only [MIN_STEP] at ht
      omega
    rw [if_neg h0]
    simp only [fan5345_set_level, if_pos ht, fan5345_disable,
      setLevelLoop_none_of_target_neg fuel 0 target le_rfl hneg]

theorem fan5345_set_level_off_equiv_witness :
    (-1 : Int) < MIN_STEP ∧
      fan5345_set_level 64 5 (-1) =
        if (-1 : Int) = 0 then some ⟨0, 0, true, 0⟩ else none :=
  ⟨by decide, fan5345_set_level_off_equiv 64 5 (-1) (by decide)⟩

theorem loopTrace_chain (fuel : Nat) :
    ∀ cur target : Int,
      List.Chain (fun a b => b = pulseStep a ∨ b = 0) cur
        (loopTrace fuel cur target) := by
  induction fuel with
  | zero => intro cur target; simp [loopTrace]
  | succ n ih =>
    intro cur target
    by_cases hc : cur = target
    · simp [loopTrace, hc]
    · simp only [loopTrace, if_neg hc]
      exact List.Chain.cons (Or.inl rfl) (ih (pulseStep cur) target)

/-- Claim C4: the believed level starts at 0 at attach; it lies in
`[0, NUM_STEPS]` after every terminating `fan5345_set_level` call that
starts inside that range; and along any run it only ever changes by a
decrement-with-wrap of a pulse (`pulseStep`) or by the shutdown reset to 0. -/
theorem fan5345_believed_level_invariant :
    attachInitLevel = 0 ∧
    (∀ (fuel : Nat) (cur b : Int) (r : SetLevelResult),
        0 ≤ cur → cur ≤ NUM_STEPS → fan5345_set_level fuel cur b = some r →
        0 ≤ r.cur_level ∧ r.cur_level ≤ NUM_STEPS) ∧
    (∀ (fuel : Nat) (cur b : Int),
        List.Chain (fun a c => c = pulseStep a ∨ c = 0) cur
          (setLevelTrace fuel cur b)) := by
  refine ⟨rfl, ?_, ?_⟩
  · intro fuel cur b r h0 h1 h
    by_cases hb : b < MIN_STEP
    · simp only [fan5345_set_level, if_pos hb, fan5345_disable] at h
      cases hres : setLevelLoop fuel 0 b with
      | none => rw [hres] at h; cases h
      | some p =>
        obtain ⟨f, k⟩ := p
        rw [hres] at h
        cases h
        exact setLevelLoop_mem fuel 0 b f k le_rfl (by simp [NUM_STEPS]) hres
    · simp only [fan5345_set_level, if_neg hb] at h
      cases hres : setLevelLoop fuel cur b with
      | none => rw [hres] at h; cases h
      | some p =>
        obtain ⟨f, k⟩ := p
        rw [hres] at h
        cases h
        exact setLevelLoop_mem fuel cur b f k h0 h1 hres
  · intro fuel cur b
    by_cases hb : b < MIN_STEP
    · simp only [setLevelTrace, if_pos hb, fan5345_disable]
      exact List.Chain.cons (Or.inr rfl) (loopTrace_chain fuel 0 b)
    · simp only [setLevelTrace, if_neg hb]
      exact loopTrace_chain fuel cur b

theorem fan5345_believed_level_invariant_witness :
    0 ≤ (5 : Int) ∧ (5 : Int) ≤ NUM_STEPS ∧
      fan5345_set_level 32 5 30 = some ⟨30, 7, false, 0⟩ ∧
      0 ≤ (⟨30, 7, false, 0⟩ : SetLevelResult).cur_level ∧
      (⟨30, 7, false, 0⟩ : SetLevelResult).cur_level ≤ NUM_STEPS :=
  ⟨by decide, by decide, by decide,
    fan5345_believed_level_invariant.2.1 32 5 30 ⟨30, 7, false, 0⟩
      (by decide) (by decide) (by decide)⟩

/-- Claim C5: if `fan5345_set_level` with target `x` terminates, then a
second call with the same target from the resulting believed level emits
zero pulses and leaves the believed level unchanged. -/
theorem fan5345_set_level_idempotent (fuel fuel2 : Nat) (cur x : Int)
    (r : SetLevelResult) (h : fan5345_set_level fuel cur x = some r) :
    ∃ r2 : SetLevelResult, fan5345_set_level fuel2 r.cur_level x = some r2 ∧
      r2.pulses = 0 ∧ r2.cur_level = r.cur_level := by
  by_cases hx : x < MIN_STEP
  · simp only [fan5345_set_level, if_pos hx, fan5345_disable] at h
    cases hres : setLevelLoop fuel 0 x with
    | none => rw [hres] at h; cases h
    | some p =>
      obtain ⟨f, k⟩ := p
      rw [hres] at h
      have hf : f = x := setLevelLoop_final fuel 0 x f k hres
      have hmem := setLevelLoop_mem fuel 0 x f k le_rfl (by simp [NUM_STEPS]) hres
      have hx0 : x = 0 := by
        simp only [MIN_STEP] at hx
        simp only [NUM_STEPS] at hmem
        omega
      cases h
      refine ⟨⟨0, 0, true, 0⟩, ?_, rfl, ?_⟩
      · subst hx0
        subst hf
        simp [fan5345_set_level, MIN_STEP, fan5345_disable, setLevelLoop_self]
      · simp only
        omega
  · simp only [fan5345_set_level, if_neg hx] at h
    cases hres : setLevelLoop fuel cur x with
    | none => rw [hres] at h; cases h
    | some p =>
      obtain ⟨f, k⟩ := p
      rw [hres] at h
      have hf : f = x := setLevelLoop_final fuel cur x f k hres
      cases h
      refine ⟨⟨f, 0, decide (x < MIN_STEP), 0⟩, ?_, rfl, rfl⟩
      subst hf
      simp [fan5345_set_level, if_neg hx, setLevelLoop_self]

theorem fan5345_set_level_idempotent_witness :
    fan5345_set_level 32 10 3 = some ⟨3, 7, false, 0⟩ ∧
      ∃ r2 : SetLevelResult,
        fan5345_set_level 32 (⟨3, 7, false, 0⟩ : SetLevelResult).cur_level 3 =
          some r2 ∧ r2.pulses = 0 ∧
          r2.cur_level = (⟨3, 7, false, 0⟩ : SetLevelResult).cur_level :=
  ⟨by decide,
    fan5345_set_level_idempotent 32 32 10 3 ⟨3, 7, false, 0⟩ (by decide)⟩

theorem hostSetBrightness_sets (fuel : Nat) (s : DeviceState) (t : Int)
    (s1 : DeviceState) (h : hostSetBrightness fuel s t = some s1) :
    s1.brightness = t := by
  simp only [hostSetBrightness] at h
  split at h
  · cases h; rfl
  · cases h

theorem runRequests_last (fuel : Nat) (reqs : List Int) :
    ∀ (s : DeviceState) (t : Int) (s2 : DeviceState),
      runRequests fuel s (reqs ++ [t]) = some s2 → s2.brightness = t := by
  induction reqs with
  | nil =>
    intro s t s2 h
    simp only [List.nil_append, runRequests] at h
    cases hh : hostSetBrightness fuel s t with
    | none => rw [hh] at h; cases h
    | some s1 =>
      rw [hh] at h
      simp only [runRequests] at h
      cases h
      exact hostSetBrightness_sets fuel s t _ hh
  | cons t0 rest ih =>
    intro s t s2 h
    simp only [List.cons_append, runRequests] at h
    cases hh : hostSetBrightness fuel s t0 with
    | none => rw [hh] at h; cases h
    | some s1 =>
      rw [hh] at h
      exact ih s1 t s2 h

/-- Claim C8: the `.get_brightness` hook `fan5345_get_level` answers from
the last requested target: after any sequence of requests ending in target
`t`, it returns `t`; and its answer depends only on
`bl->props.brightness`, never on the internal believed level. -/
theorem fan5345_get_level_is_last_request :
    (∀ (fuel : Nat) (s : DeviceState) (reqs : List Int) (t : Int)
        (s2 : DeviceState),
        runRequests fuel s (reqs ++ [t]) = some s2 →
        fan5345_get_level s2 = t) ∧
    (∀ s1 s2 : DeviceState, s1.brightness = s2.brightness →
        fan5345_get_level s1 = fan5345_get_level s2) :=
  ⟨fun fuel s reqs t s2 h => runRequests_last fuel reqs s t s2 h,
    fun _ _ h => h⟩

theorem fan5345_get_level_is_last_request_witness :
    runRequests 32 ⟨0, 0⟩ ([5] ++ [7]) = some ⟨7, 7⟩ ∧
      fan5345_get_level ⟨7, 7⟩ = 7 :=
  ⟨by decide,
    fan5345_get_level_is_last_request.1 32 ⟨0, 0⟩ [5] 7 ⟨7, 7⟩ (by decide)⟩
